import Mathlib

/-! Verification of the model-builder classes in `util/classification/models.py`
(repository `LCStudies`).

The file defines three builder classes — `baseline_nn_model`, `resnet` and
`simple_combine_model` — each a flat configuration holder with a single
factory method `model()` that assembles a Keras layer graph and compiles it.
We embed the layer graph shallowly: each Keras layer constructor call becomes
a constructor of the inductive type `Layer` recording exactly the arguments
the Python code passes, and `model()` becomes a pure function producing the
list of layers in the order the Python code adds them, together with the
compile settings (loss, optimizer, metrics).

Python list/string indexing (`filter_sets[i]`, `ascii_lowercase[j+1]`) can
raise `IndexError`; we embed it as `Except String` with error value
`"IndexError"`, so `resnet.model` returns `Except String Model`.

The single piece of behaviour that depends on the external library rather
than on this repository's code is the spatial shape of the tensor `X` right
before the average-pooling layer (`X.shape[1]`, `X.shape[2]` at lines
115–117): it is produced by Keras shape inference through the custom blocks.
We abstract it as an explicit argument `X_shape` to `resnet.model`; the
repository's own branch on it (`pool_size` selection) is embedded verbatim.
-/

/-- Kernel initializers passed to `Dense`/`Conv2D` by `models.py`:
`kernel_initializer='normal'` and `glorot_uniform(seed=0)`. -/
inductive Initializer where
  | normal
  | glorot_uniform (seed : Nat)
deriving DecidableEq

/-- Optimizers constructed in `models.py`: only `Adam(lr=lr)` is used. -/
inductive Optimizer where
  | Adam (lr : Rat)
  | SGD (lr : Rat)
deriving DecidableEq

/-- One layer of the assembled graph, recording the constructor arguments the
Python code passes at each call site in `util/classification/models.py`. -/
inductive Layer where
  /-- Call `Input((None,None,1), name=...)` (line 78). -/
  | Input (shape : Option Nat × Option Nat × Option Nat) (nm : String)
  /-- Call `Dense(units, input_dim=?, kernel_initializer=?, activation=..., name=?)`. -/
  | Dense (units : Nat) (input_dim : Option Nat) (kernel_initializer : Option Initializer)
      (activation : String) (nm : Option String)
  /-- Call `Dropout(rate)`. -/
  | Dropout (rate : Rat)
  /-- Call `ImageScaleBlock(shape, normalization=..., name_prefix=...)` (line 82). -/
  | ImageScaleBlock (shape : Nat × Nat) (normalization : Bool) (pfx : String)
  /-- Call `ZeroPadding2D((3,3))` (line 84). -/
  | ZeroPadding2D (pad : Nat × Nat)
  /-- Call `RandomFlip(name='aug_reflect')` (line 92). -/
  | RandomFlip (nm : String)
  /-- Call `Conv2D(filters, kernel, strides=..., name=..., kernel_initializer=...)` (line 95). -/
  | Conv2D (filters : Nat) (kernel : Nat × Nat) (strides : Nat × Nat) (nm : String)
      (kernel_initializer : Initializer)
  /-- Call `BatchNormalization(axis=3, name=...)` (line 96). -/
  | BatchNormalization (axis : Nat) (nm : String)
  /-- Call `Activation('relu')` (line 97). -/
  | Activation (kind : String)
  /-- Call `MaxPooling2D((3,3), strides=(2,2))` (line 98). -/
  | MaxPooling2D (pool : Nat × Nat) (strides : Nat × Nat)
  /-- Call `ConvolutionBlock(f=f, filters=filters, stage=stage, block='a', s=s, normalization=...)` (line 108). -/
  | ConvolutionBlock (f : Nat) (filters : List Nat) (stage : Nat) (block : String) (s : Nat)
      (normalization : Bool)
  /-- Call `IdentityBlock(f=f, filters=filters, stage=stage, block=..., normalization=...)` (line 112). -/
  | IdentityBlock (f : Nat) (filters : List Nat) (stage : Nat) (block : String)
      (normalization : Bool)
  /-- Call `AveragePooling2D(pool_size=..., name="avg_pool")` (line 118). -/
  | AveragePooling2D (pool : Nat × Nat) (nm : String)
  /-- Call `Flatten()` (line 121). -/
  | Flatten
deriving DecidableEq

/-- A built-and-compiled model: the inputs (empty for `Sequential`), the layer
list in the order the Python code adds the layers, and the arguments of the
`model.compile(...)` call. -/
structure Model where
  inputs : List Layer
  layers : List Layer
  loss : String
  optimizer : Optimizer
  metrics : List String
  nm : String
deriving DecidableEq

/-- Configuration of `baseline_nn_model` (lines 15–21).  The opaque
distributed-training `strategy` object is represented by a tag; `model()`
only enters its scope. -/
structure baseline_nn_model where
  strategy : String
  number_pixels : Nat
  lr : Rat := 5 / 100000
  dropout : Rat := -1
deriving DecidableEq

/-- Embeds the empty `self.custom_objects` dict (line 21). -/
def baseline_nn_model.custom_objects (_ : baseline_nn_model) : List String := []

/-- Method `baseline_nn_model.model()` (lines 24–41): a `Sequential` stack of
`Dense` layers with a `Dropout` after each of the first three exactly when
`self.dropout > 0.`, compiled with categorical crossentropy, `Adam(lr=lr)`
and the `'acc'` metric.  `int(used_pixels/2)` is floor division for a
natural pixel count. -/
def baseline_nn_model.model (m : baseline_nn_model) : Model :=
  let dropout := m.dropout
  let used_pixels := m.number_pixels
  { inputs := []
    layers :=
      [Layer.Dense used_pixels (some used_pixels) (some Initializer.normal) "relu" none]
      ++ (if dropout > 0 then [Layer.Dropout dropout] else [])
      ++ [Layer.Dense used_pixels none none "relu" none]
      ++ (if dropout > 0 then [Layer.Dropout dropout] else [])
      ++ [Layer.Dense (used_pixels / 2) none none "relu" none]
      ++ (if dropout > 0 then [Layer.Dropout dropout] else [])
      ++ [Layer.Dense 2 none (some Initializer.normal) "softmax" none]
    loss := "categorical_crossentropy"
    optimizer := Optimizer.Adam m.lr
    metrics := ["acc"]
    nm := "" }

/-- State-passing reading of the method call `m.model()`: the method body
(lines 24–41) reads `self.dropout`, `self.number_pixels`, `self.strategy`
and `self.lr` into locals and contains no assignment to any attribute of
`self`, so the post-call object has field for field the values set in
`__init__`. -/
def baseline_nn_model.modelCall (m : baseline_nn_model) : Model × baseline_nn_model :=
  (m.model,
   { strategy := m.strategy
     number_pixels := m.number_pixels
     lr := m.lr
     dropout := m.dropout })

/-- Configuration of `simple_combine_model` (lines 134–139). -/
structure simple_combine_model where
  strategy : String
  lr : Rat := 5 / 100000
  n_input : Nat := 6
deriving DecidableEq

/-- Embeds the empty `self.custom_objects` dict (line 139). -/
def simple_combine_model.custom_objects (_ : simple_combine_model) : List String := []

/-- Method `simple_combine_model.model()` (lines 142–154): `Sequential` with
`Dense(n_input, input_dim=n_input, relu)`, `Dense(4, relu)`,
`Dense(2, softmax)`, compiled like the others. -/
def simple_combine_model.model (m : simple_combine_model) : Model :=
  let n_input := m.n_input
  { inputs := []
    layers :=
      [Layer.Dense n_input (some n_input) (some Initializer.normal) "relu" none,
       Layer.Dense 4 none none "relu" none,
       Layer.Dense 2 none (some Initializer.normal) "softmax" none]
    loss := "categorical_crossentropy"
    optimizer := Optimizer.Adam m.lr
    metrics := ["acc"]
    nm := "" }

/-- State-passing reading of the method call `m.model()` (lines 142–154):
no attribute of `self` is assigned. -/
def simple_combine_model.modelCall (m : simple_combine_model) : Model × simple_combine_model :=
  (m.model,
   { strategy := m.strategy
     lr := m.lr
     n_input := m.n_input })

/-- Python list indexing `xs[i]` for a nonnegative index: raises `IndexError`
out of range. -/
def pyIndex {α : Type} (xs : List α) (i : Nat) : Except String α :=
  match xs[i]? with
  | some x => Except.ok x
  | none => Except.error "IndexError"

/-- Python's `string.ascii_lowercase`, indexed by `ascii_lowercase[j+1]` at line 112. -/
def ascii_lowercase : List Char :=
  ['a', 'b', 'c', 'd', 'e', 'f', 'g', 'h', 'i', 'j', 'k', 'l', 'm',
   'n', 'o', 'p', 'q', 'r', 's', 't', 'u', 'v', 'w', 'x', 'y', 'z']

/-- A Python `for`-loop that builds one value per iteration and can raise:
the first raised exception aborts the loop and propagates. -/
def mapExcept {α β : Type} (f : α → Except String β) : List α → Except String (List β)
  | [] => Except.ok []
  | x :: xs => do
    let y ← f x
    let ys ← mapExcept f xs
    pure (y :: ys)

/-- Configuration of `resnet` (lines 47–57), with the default values of
`__init__`. -/
structure resnet where
  filter_sets : List (List Nat)
  f_vals : List Nat
  s_vals : List Nat
  i_vals : List Nat
  channels : Nat := 6
  lr : Rat := 5 / 100000
  input_shape : Nat × Nat := (128, 16)
  augmentation : Bool := true
  normalization : Bool := true
  classes : Nat := 2
deriving DecidableEq

/-- Embeds `self.custom_objects` (lines 58–62): the keys of the dict. -/
def resnet.custom_objects (_ : resnet) : List String :=
  ["ImageScaleBlock", "ConvolutionBlock", "IdentityBlock"]

/-- The inner loop `for j in range(ib)` at lines 110–112: one
`IdentityBlock(f, filters, stage, block=ascii_lowercase[j+1], normalization)`
per iteration; `ascii_lowercase[j+1]` raises `IndexError` for `j+1 >= 26`. -/
def identityLoop (f : Nat) (filters : List Nat) (stage : Nat) (norm : Bool) (ib : Nat) :
    Except String (List Layer) :=
  mapExcept (fun j => do
    let c ← pyIndex ascii_lowercase (j + 1)
    pure (Layer.IdentityBlock f filters stage (String.singleton c) norm)) (List.range ib)

/-- One iteration of the loop `for i in range(n)` at lines 101–112: read
`filter_sets[i]`, `f_vals[i]`, `s_vals[i]`, `i_vals[i]` (each may raise
`IndexError`), add one `ConvolutionBlock` with `block='a'`, `s=s_vals[i]`,
`stage=i+1`, then run the identity-block loop. -/
def resnetStage (filter_sets : List (List Nat)) (f_vals s_vals i_vals : List Nat)
    (norm : Bool) (i : Nat) : Except String (List Layer) := do
  let filters ← pyIndex filter_sets i
  let f ← pyIndex f_vals i
  let s ← pyIndex s_vals i
  let ib ← pyIndex i_vals i
  let stage := i + 1
  let ids ← identityLoop f filters stage norm ib
  pure (Layer.ConvolutionBlock f filters stage "a" s norm :: ids)

/-- The `pool_size` selection at lines 115–117, applied to the spatial shape
`(X.shape[1], X.shape[2])` inferred by the library for the tensor entering
the average-pooling layer. -/
def poolSizeFor (s1 s2 : Nat) : Nat × Nat :=
  if s1 = 1 then (1, 2) else if s2 = 1 then (2, 1) else (2, 2)

/-- Method `resnet.model()` (lines 65–130).  `X_shape` stands for the
library-inferred spatial shape `(X.shape[1], X.shape[2])` at line 115; it is
the one value in the method that comes from the external library's shape
inference rather than from this repository's code.  Everything else follows
the source line by line: `channels` inputs named `'input'+str(i)`, an
`ImageScaleBlock(input_shape, normalization=True)` (note: hardcoded `True`
at line 82), `ZeroPadding2D((3,3))`, a `RandomFlip` exactly when
`augmentation`, the fixed stage-1 layers, the stage loop, then average
pooling, `Flatten` and the `Dense(classes, softmax)` head, compiled with
categorical crossentropy, `Adam(lr=lr)` and metric `'acc'`. -/
def resnet.model (m : resnet) (X_shape : Nat × Nat) : Except String Model := do
  let stages ← mapExcept
    (resnetStage m.filter_sets m.f_vals m.s_vals m.i_vals m.normalization)
    (List.range m.f_vals.length)
  pure
    { inputs := (List.range m.channels).map
        (fun i => Layer.Input (none, none, some 1) ("input" ++ toString i))
      layers :=
        [Layer.ImageScaleBlock m.input_shape true "scaled_input_",
         Layer.ZeroPadding2D (3, 3)]
        ++ (if m.augmentation then [Layer.RandomFlip "aug_reflect"] else [])
        ++ [Layer.Conv2D 64 (7, 7) (2, 2) "conv1" (Initializer.glorot_uniform 0),
            Layer.BatchNormalization 3 "bn_conv1",
            Layer.Activation "relu",
            Layer.MaxPooling2D (3, 3) (2, 2)]
        ++ stages.flatten
        ++ [Layer.AveragePooling2D (poolSizeFor X_shape.1 X_shape.2) "avg_pool",
            Layer.Flatten,
            Layer.Dense m.classes none (some (Initializer.glorot_uniform 0)) "softmax"
              (some ("fc" ++ toString m.classes))]
      loss := "categorical_crossentropy"
      optimizer := Optimizer.Adam m.lr
      metrics := ["acc"]
      nm := "ResNet50" }

/-- State-passing reading of the method call `m.model()` (lines 65–130): the
method reads the ten attributes into locals (lines 66–75) and assigns none
of them, so the post-call object carries the `__init__` configuration
unchanged. -/
def resnet.modelCall (m : resnet) (X_shape : Nat × Nat) :
    Except String Model × resnet :=
  (m.model X_shape,
   { filter_sets := m.filter_sets
     f_vals := m.f_vals
     s_vals := m.s_vals
     i_vals := m.i_vals
     channels := m.channels
     lr := m.lr
     input_shape := m.input_shape
     augmentation := m.augmentation
     normalization := m.normalization
     classes := m.classes })

/-- The only exception a computation can produce is the raw `IndexError` of
Python indexing: no exception is caught, transformed or replaced. -/
def OnlyIndexError {α : Type} (r : Except String α) : Prop :=
  ∀ e, r = Except.error e → e = "IndexError"

/-! Section: Concrete configurations used to instantiate the theorems -/

/-- A small concrete `baseline_nn_model` configuration. -/
def bEx : baseline_nn_model := { strategy := "mirrored", number_pixels := 8 }

/-- A small concrete `simple_combine_model` configuration. -/
def sEx : simple_combine_model := { strategy := "mirrored" }

/-- Fallback model value used to read a successful build out of `Except`. -/
def emptyModel : Model :=
  { inputs := [], layers := [], loss := "", optimizer := Optimizer.Adam 0, metrics := [],
    nm := "" }

/-- A small well-formed `resnet` configuration: one stage with two identity
blocks. -/
def rEx : resnet :=
  { filter_sets := [[4, 4, 8]], f_vals := [3], s_vals := [1], i_vals := [2], channels := 2 }

/-- The model `rEx` builds at inferred pre-pooling spatial shape `(2, 2)`. -/
def rExModel : Model := (rEx.model (2, 2)).toOption.getD emptyModel

/-- Configuration `rEx` with augmentation turned off. -/
def rExNoAug : resnet :=
  { filter_sets := [[4, 4, 8]], f_vals := [3], s_vals := [1], i_vals := [2], channels := 2,
    augmentation := false }

/-- The model `rExNoAug` builds at shape `(2, 2)`. -/
def rExNoAugModel : Model := (rExNoAug.model (2, 2)).toOption.getD emptyModel

/-- Configuration `rEx` with batch normalization turned off in the blocks. -/
def rExNoNorm : resnet :=
  { filter_sets := [[4, 4, 8]], f_vals := [3], s_vals := [1], i_vals := [2], channels := 2,
    normalization := false }

/-- The model `rExNoNorm` builds at shape `(2, 2)`. -/
def rExNoNormModel : Model := (rExNoNorm.model (2, 2)).toOption.getD emptyModel

/-- A `resnet` configuration whose `filter_sets` is shorter than `f_vals`. -/
def rExShort : resnet :=
  { filter_sets := [], f_vals := [3], s_vals := [1], i_vals := [1] }

/-- A `resnet` configuration asking for 26 identity blocks in its only
stage. -/
def rExOverflow : resnet :=
  { filter_sets := [[4, 4, 8]], f_vals := [3], s_vals := [1], i_vals := [26] }

/-! Section: Helper lemmas about the embedded Python primitives -/

@[simp] theorem exc_ok_bind {α β : Type} (a : α) (f : α → Except String β) :
    (Except.ok a >>= f : Except String β) = f a := rfl

@[simp] theorem exc_error_bind {α β : Type} (e : String) (f : α → Except String β) :
    ((Except.error e : Except String α) >>= f) = Except.error e := rfl

@[simp] theorem exc_pure_eq_ok {α : Type} (a : α) :
    (pure a : Except String α) = Except.ok a := rfl

theorem pyIndex_ok_getD {α : Type} (xs : List α) (i : Nat) (d : α) (h : i < xs.length) :
    pyIndex xs i = Except.ok (xs.getD i d) := by
  simp [pyIndex, List.getElem?_eq_getElem h]

theorem pyIndex_err {α : Type} (xs : List α) (i : Nat) (h : xs.length ≤ i) :
    pyIndex xs i = Except.error "IndexError" := by
  simp [pyIndex, List.getElem?_eq_none h]

theorem pyIndex_ok_iff {α : Type} (xs : List α) (i : Nat) (y : α) :
    pyIndex xs i = Except.ok y ↔ xs[i]? = some y := by
  unfold pyIndex
  cases h : xs[i]? <;> simp

theorem pyIndex_error_eq {α : Type} (xs : List α) (i : Nat) (e : String)
    (h : pyIndex xs i = Except.error e) : e = "IndexError" := by
  unfold pyIndex at h
  cases hg : xs[i]? <;> simp [hg] at h
  exact h.symm

theorem pyIndex_ok_lt {α : Type} (xs : List α) (i : Nat) (y : α)
    (h : pyIndex xs i = Except.ok y) : i < xs.length := by
  by_contra hn
  rw [pyIndex_err xs i (Nat.le_of_not_lt hn)] at h
  exact Except.noConfusion h

theorem mapExcept_ok_of_forall {α β : Type} (f : α → Except String β) (g : α → β) :
    ∀ l : List α, (∀ x ∈ l, f x = Except.ok (g x)) → mapExcept f l = Except.ok (l.map g)
  | [], _ => rfl
  | x :: xs, h => by
    have hx := h x (List.mem_cons_self x xs)
    have hxs := mapExcept_ok_of_forall f g xs (fun y hy => h y (List.mem_cons_of_mem x hy))
    simp [mapExcept, hx, hxs]

theorem mapExcept_ok_forall_mem {α β : Type} (f : α → Except String β) :
    ∀ (l : List α) (ys : List β), mapExcept f l = Except.ok ys →
      ∀ x ∈ l, ∃ y, f x = Except.ok y
  | [], _, _, x, hx => absurd hx (List.not_mem_nil x)
  | a :: l, ys, h, x, hx => by
    rw [mapExcept] at h
    cases hfa : f a with
    | error e => rw [hfa] at h; simp at h
    | ok y =>
      rw [hfa] at h
      simp only [exc_ok_bind] at h
      cases hml : mapExcept f l with
      | error e => rw [hml] at h; simp at h
      | ok zs =>
        rcases List.mem_cons.mp hx with rfl | hx'
        · exact ⟨y, hfa⟩
        · exact mapExcept_ok_forall_mem f l zs hml x hx'

theorem mapExcept_ok_mem {α β : Type} (f : α → Except String β) :
    ∀ (l : List α) (ys : List β), mapExcept f l = Except.ok ys →
      ∀ y ∈ ys, ∃ x ∈ l, f x = Except.ok y
  | [], ys, h, y, hy => by
    rw [mapExcept] at h
    cases h
    exact absurd hy (List.not_mem_nil y)
  | a :: l, ys, h, y, hy => by
    rw [mapExcept] at h
    cases hfa : f a with
    | error e => rw [hfa] at h; simp at h
    | ok z =>
      rw [hfa] at h
      simp only [exc_ok_bind] at h
      cases hml : mapExcept f l with
      | error e => rw [hml] at h; simp at h
      | ok zs =>
        rw [hml] at h
        simp only [exc_ok_bind, exc_pure_eq_ok] at h
        cases h
        rcases List.mem_cons.mp hy with rfl | hy'
        · exact ⟨a, List.mem_cons_self a l, hfa⟩
        · obtain ⟨x, hxl, hfx⟩ := mapExcept_ok_mem f l zs hml y hy'
          exact ⟨x, List.mem_cons_of_mem a hxl, hfx⟩

theorem mapExcept_error_mem {α β : Type} (f : α → Except String β) :
    ∀ (l : List α) (e : String), mapExcept f l = Except.error e →
      ∃ x ∈ l, f x = Except.error e
  | [], e, h => by rw [mapExcept] at h; cases h
  | a :: l, e, h => by
    rw [mapExcept] at h
    cases hfa : f a with
    | error e' =>
      rw [hfa] at h
      simp only [exc_error_bind] at h
      cases h
      exact ⟨a, List.mem_cons_self a l, hfa⟩
    | ok z =>
      rw [hfa] at h
      simp only [exc_ok_bind] at h
      cases hml : mapExcept f l with
      | error e' =>
        rw [hml] at h
        simp only [exc_error_bind] at h
        cases h
        obtain ⟨x, hxl, hfx⟩ := mapExcept_error_mem f l e hml
        exact ⟨x, List.mem_cons_of_mem a hxl, hfx⟩
      | ok zs => rw [hml] at h; simp at h

/-! Section: The layer stack `resnet.model` builds when it succeeds -/

theorem ascii_lowercase_length : ascii_lowercase.length = 26 := rfl

theorem identityLoop_ok (f : Nat) (filters : List Nat) (stage : Nat) (norm : Bool) (ib : Nat)
    (h : ib ≤ 25) :
    identityLoop f filters stage norm ib =
      Except.ok ((List.range ib).map fun j =>
        Layer.IdentityBlock f filters stage
          (String.singleton (ascii_lowercase.getD (j + 1) 'a')) norm) := by
  unfold identityLoop
  apply mapExcept_ok_of_forall
  intro j hj
  have hjlt : j < ib := List.mem_range.mp hj
  have hlt : j + 1 < ascii_lowercase.length := by
    rw [ascii_lowercase_length]; omega
  simp [pyIndex_ok_getD ascii_lowercase (j + 1) 'a' hlt]

theorem resnetStage_ok (fs : List (List Nat)) (fv sv iv : List Nat) (norm : Bool) (i : Nat)
    (h1 : i < fs.length) (h2 : i < fv.length) (h3 : i < sv.length) (h4 : i < iv.length)
    (h5 : iv.getD i 0 ≤ 25) :
    resnetStage fs fv sv iv norm i =
      Except.ok
        (Layer.ConvolutionBlock (fv.getD i 0) (fs.getD i []) (i + 1) "a" (sv.getD i 0) norm ::
          (List.range (iv.getD i 0)).map fun j =>
            Layer.IdentityBlock (fv.getD i 0) (fs.getD i []) (i + 1)
              (String.singleton (ascii_lowercase.getD (j + 1) 'a')) norm) := by
  unfold resnetStage
  rw [pyIndex_ok_getD fs i [] h1]
  simp only [exc_ok_bind]
  rw [pyIndex_ok_getD fv i 0 h2]
  simp only [exc_ok_bind]
  rw [pyIndex_ok_getD sv i 0 h3]
  simp only [exc_ok_bind]
  rw [pyIndex_ok_getD iv i 0 h4]
  simp only [exc_ok_bind]
  rw [identityLoop_ok (fv.getD i 0) (fs.getD i []) (i + 1) norm (iv.getD i 0) h5]
  simp only [exc_ok_bind, exc_pure_eq_ok]

theorem resnet_model_ok_elim (m : resnet) (sh : Nat × Nat) (cm : Model)
    (h : m.model sh = Except.ok cm) :
    ∃ stages,
      mapExcept (resnetStage m.filter_sets m.f_vals m.s_vals m.i_vals m.normalization)
        (List.range m.f_vals.length) = Except.ok stages ∧
      cm =
        { inputs := (List.range m.channels).map
            (fun i => Layer.Input (none, none, some 1) ("input" ++ toString i))
          layers :=
            [Layer.ImageScaleBlock m.input_shape true "scaled_input_",
             Layer.ZeroPadding2D (3, 3)]
            ++ (if m.augmentation then [Layer.RandomFlip "aug_reflect"] else [])
            ++ [Layer.Conv2D 64 (7, 7) (2, 2) "conv1" (Initializer.glorot_uniform 0),
                Layer.BatchNormalization 3 "bn_conv1",
                Layer.Activation "relu",
                Layer.MaxPooling2D (3, 3) (2, 2)]
            ++ stages.flatten
            ++ [Layer.AveragePooling2D (poolSizeFor sh.1 sh.2) "avg_pool",
                Layer.Flatten,
                Layer.Dense m.classes none (some (Initializer.glorot_uniform 0)) "softmax"
                  (some ("fc" ++ toString m.classes))]
          loss := "categorical_crossentropy"
          optimizer := Optimizer.Adam m.lr
          metrics := ["acc"]
          nm := "ResNet50" } := by
  unfold resnet.model at h
  cases hs : mapExcept (resnetStage m.filter_sets m.f_vals m.s_vals m.i_vals m.normalization)
      (List.range m.f_vals.length) with
  | error e => rw [hs] at h; simp at h
  | ok stages =>
    rw [hs] at h
    simp only [exc_ok_bind, exc_pure_eq_ok, Except.ok.injEq] at h
    exact ⟨stages, rfl, h.symm⟩

/-! Section: Every failure of `resnet.model` is the propagated `IndexError` -/

theorem onlyIndexError_ok {α : Type} (a : α) : OnlyIndexError (Except.ok a) :=
  fun _ h => Except.noConfusion h

theorem onlyIndexError_bind {α β : Type} {r : Except String α} {f : α → Except String β}
    (hr : OnlyIndexError r) (hf : ∀ a, OnlyIndexError (f a)) : OnlyIndexError (r >>= f) := by
  intro e h
  cases hrc : r with
  | error e' =>
    rw [hrc, exc_error_bind] at h
    cases h
    exact hr e hrc
  | ok a =>
    rw [hrc, exc_ok_bind] at h
    exact hf a e h

theorem onlyIndexError_pyIndex {α : Type} (xs : List α) (i : Nat) :
    OnlyIndexError (pyIndex xs i) :=
  fun e h => pyIndex_error_eq xs i e h

theorem onlyIndexError_mapExcept {α β : Type} (f : α → Except String β) (l : List α)
    (hf : ∀ x ∈ l, OnlyIndexError (f x)) : OnlyIndexError (mapExcept f l) := by
  intro e h
  obtain ⟨x, hxl, hfx⟩ := mapExcept_error_mem f l e h
  exact hf x hxl e hfx

theorem onlyIndexError_identityLoop (f : Nat) (filters : List Nat) (stage : Nat) (norm : Bool)
    (ib : Nat) : OnlyIndexError (identityLoop f filters stage norm ib) := by
  unfold identityLoop
  apply onlyIndexError_mapExcept
  intro j _
  exact onlyIndexError_bind (onlyIndexError_pyIndex _ _) (fun c => onlyIndexError_ok _)

theorem onlyIndexError_resnetStage (fs : List (List Nat)) (fv sv iv : List Nat) (norm : Bool)
    (i : Nat) : OnlyIndexError (resnetStage fs fv sv iv norm i) := by
  unfold resnetStage
  apply onlyIndexError_bind (onlyIndexError_pyIndex _ _)
  intro filters
  apply onlyIndexError_bind (onlyIndexError_pyIndex _ _)
  intro f
  apply onlyIndexError_bind (onlyIndexError_pyIndex _ _)
  intro s
  apply onlyIndexError_bind (onlyIndexError_pyIndex _ _)
  intro ib
  exact onlyIndexError_bind (onlyIndexError_identityLoop _ _ _ _ _) (fun ids => onlyIndexError_ok _)

theorem onlyIndexError_resnet_model (m : resnet) (sh : Nat × Nat) :
    OnlyIndexError (m.model sh) := by
  unfold resnet.model
  apply onlyIndexError_bind
  · exact onlyIndexError_mapExcept _ _ (fun i _ => onlyIndexError_resnetStage _ _ _ _ _ i)
  · intro stages
    exact onlyIndexError_ok _

/-! Section: Bounds a successful build certifies -/

theorem identityLoop_ok_le (f : Nat) (filters : List Nat) (stage : Nat) (norm : Bool)
    (ib : Nat) (ys : List Layer) (h : identityLoop f filters stage norm ib = Except.ok ys) :
    ib ≤ 25 := by
  by_contra hn
  have h25 : 25 ∈ List.range ib := List.mem_range.mpr (by omega)
  obtain ⟨y, hy⟩ := mapExcept_ok_forall_mem _ _ _ h 25 h25
  rw [pyIndex_err ascii_lowercase 26 (by rw [ascii_lowercase_length])] at hy
  rw [exc_error_bind] at hy
  exact Except.noConfusion hy

theorem resnetStage_ok_bounds (fs : List (List Nat)) (fv sv iv : List Nat) (norm : Bool)
    (i : Nat) (ys : List Layer) (h : resnetStage fs fv sv iv norm i = Except.ok ys) :
    i < fs.length ∧ i < fv.length ∧ i < sv.length ∧ i < iv.length ∧ iv.getD i 0 ≤ 25 := by
  unfold resnetStage at h
  cases h1 : pyIndex fs i with
  | error e => rw [h1, exc_error_bind] at h; exact Except.noConfusion h
  | ok filters =>
  rw [h1, exc_ok_bind] at h
  cases h2 : pyIndex fv i with
  | error e => rw [h2, exc_error_bind] at h; exact Except.noConfusion h
  | ok f =>
  rw [h2, exc_ok_bind] at h
  cases h3 : pyIndex sv i with
  | error e => rw [h3, exc_error_bind] at h; exact Except.noConfusion h
  | ok s =>
  rw [h3, exc_ok_bind] at h
  cases h4 : pyIndex iv i with
  | error e => rw [h4, exc_error_bind] at h; exact Except.noConfusion h
  | ok ib =>
  rw [h4] at h
  simp only [exc_ok_bind] at h
  cases h5 : identityLoop f filters (i + 1) norm ib with
  | error e => rw [h5, exc_error_bind] at h; exact Except.noConfusion h
  | ok ids =>
  have hib : ib = iv.getD i 0 := by
    have := (pyIndex_ok_iff iv i ib).mp h4
    simp [List.getD_eq_getElem?_getD, this]
  refine ⟨pyIndex_ok_lt _ _ _ h1, pyIndex_ok_lt _ _ _ h2, pyIndex_ok_lt _ _ _ h3,
    pyIndex_ok_lt _ _ _ h4, ?_⟩
  rw [← hib]
  exact identityLoop_ok_le f filters (i + 1) norm ib ids h5

theorem resnet_model_ok_bounds (m : resnet) (sh : Nat × Nat) (cm : Model)
    (h : m.model sh = Except.ok cm) :
    ∀ i, i < m.f_vals.length →
      i < m.filter_sets.length ∧ i < m.s_vals.length ∧ i < m.i_vals.length ∧
        m.i_vals.getD i 0 ≤ 25 := by
  intro i hi
  obtain ⟨stages, hs, _⟩ := resnet_model_ok_elim m sh cm h
  obtain ⟨ys, hys⟩ := mapExcept_ok_forall_mem _ _ _ hs i (List.mem_range.mpr hi)
  obtain ⟨_, h2, h3, h4, h5⟩ := resnetStage_ok_bounds _ _ _ _ _ i ys hys
  exact ⟨by assumption, h3, h4, h5⟩

/-! Section: What the stage loop can put into the graph -/

theorem resnetStage_ok_mem (fs : List (List Nat)) (fv sv iv : List Nat) (norm : Bool)
    (i : Nat) (ys : List Layer) (h : resnetStage fs fv sv iv norm i = Except.ok ys) :
    ∀ x ∈ ys,
      (∃ f fl st s, x = Layer.ConvolutionBlock f fl st "a" s norm) ∨
      (∃ f fl st bl, x = Layer.IdentityBlock f fl st bl norm) := by
  obtain ⟨b1, b2, b3, b4, b5⟩ := resnetStage_ok_bounds fs fv sv iv norm i ys h
  rw [resnetStage_ok fs fv sv iv norm i b1 b2 b3 b4 b5] at h
  injection h with h
  subst h
  intro x hx
  rcases List.mem_cons.mp hx with rfl | hx'
  · exact Or.inl ⟨_, _, _, _, rfl⟩
  · obtain ⟨j, _, rfl⟩ := List.mem_map.mp hx'
    exact Or.inr ⟨_, _, _, _, rfl⟩

theorem stagesFlatten_mem (m : resnet) (stages : List (List Layer))
    (hs : mapExcept (resnetStage m.filter_sets m.f_vals m.s_vals m.i_vals m.normalization)
      (List.range m.f_vals.length) = Except.ok stages) :
    ∀ x ∈ stages.flatten,
      (∃ f fl st s, x = Layer.ConvolutionBlock f fl st "a" s m.normalization) ∨
      (∃ f fl st bl, x = Layer.IdentityBlock f fl st bl m.normalization) := by
  intro x hx
  obtain ⟨ys, hys, hxys⟩ := List.mem_flatten.mp hx
  obtain ⟨i, _, hstage⟩ := mapExcept_ok_mem _ _ _ hs ys hys
  exact resnetStage_ok_mem _ _ _ _ _ i ys hstage x hxys

theorem randomFlip_not_mem_stages (m : resnet) (stages : List (List Layer))
    (hs : mapExcept (resnetStage m.filter_sets m.f_vals m.s_vals m.i_vals m.normalization)
      (List.range m.f_vals.length) = Except.ok stages) (s : String) :
    Layer.RandomFlip s ∉ stages.flatten := by
  intro hmem
  rcases stagesFlatten_mem m stages hs _ hmem with ⟨f, fl, st, sv, hx⟩ | ⟨f, fl, st, bl, hx⟩ <;>
    exact Layer.noConfusion hx

/-! Section: The claims -/

/-- C2: for every `baseline_nn_model` with pixel count `n`, `model()` is a
`Sequential` stack `Dense(n, relu, input_dim=n)`, `Dense(n, relu)`,
`Dense(n/2 rounded down, relu)`, `Dense(2, softmax)`, with a
`Dropout(dropout)` after each of the three hidden `Dense` layers exactly
when `dropout > 0`. -/
theorem baseline_model_layer_list (m : baseline_nn_model) :
    m.model.inputs = [] ∧
    m.model.layers =
      (if m.dropout > 0 then
        [Layer.Dense m.number_pixels (some m.number_pixels) (some Initializer.normal) "relu" none,
         Layer.Dropout m.dropout,
         Layer.Dense m.number_pixels none none "relu" none,
         Layer.Dropout m.dropout,
         Layer.Dense (m.number_pixels / 2) none none "relu" none,
         Layer.Dropout m.dropout,
         Layer.Dense 2 none (some Initializer.normal) "softmax" none]
      else
        [Layer.Dense m.number_pixels (some m.number_pixels) (some Initializer.normal) "relu" none,
         Layer.Dense m.number_pixels none none "relu" none,
         Layer.Dense (m.number_pixels / 2) none none "relu" none,
         Layer.Dense 2 none (some Initializer.normal) "softmax" none]) := by
  refine ⟨rfl, ?_⟩
  by_cases hd : m.dropout > 0 <;> simp [baseline_nn_model.model, hd]

/-- C3: for every `simple_combine_model` with input width `n_input`,
`model()` is a `Sequential` stack `Dense(n_input, relu, input_dim=n_input)`,
`Dense(4, relu)`, `Dense(2, softmax)`. -/
theorem simple_combine_model_layer_list (m : simple_combine_model) :
    m.model.inputs = [] ∧
    m.model.layers =
      [Layer.Dense m.n_input (some m.n_input) (some Initializer.normal) "relu" none,
       Layer.Dense 4 none none "relu" none,
       Layer.Dense 2 none (some Initializer.normal) "softmax" none] :=
  ⟨rfl, rfl⟩

/-- C4: every `model()` method compiles with loss
`'categorical_crossentropy'`, `Adam` at the constructor's learning rate, and
the single metric `'acc'`. -/
theorem models_compile_fixed_settings (b : baseline_nn_model) (s : simple_combine_model)
    (r : resnet) (sh : Nat × Nat) (cm : Model) (h : r.model sh = Except.ok cm) :
    (b.model.loss = "categorical_crossentropy" ∧ b.model.optimizer = Optimizer.Adam b.lr ∧
      b.model.metrics = ["acc"]) ∧
    (s.model.loss = "categorical_crossentropy" ∧ s.model.optimizer = Optimizer.Adam s.lr ∧
      s.model.metrics = ["acc"]) ∧
    (cm.loss = "categorical_crossentropy" ∧ cm.optimizer = Optimizer.Adam r.lr ∧
      cm.metrics = ["acc"]) := by
  obtain ⟨stages, _, rfl⟩ := resnet_model_ok_elim r sh cm h
  exact ⟨⟨rfl, rfl, rfl⟩, ⟨rfl, rfl, rfl⟩, rfl, rfl, rfl⟩

/-- Witness for C4 at the concrete configurations. -/
theorem models_compile_fixed_settings_witness :
    (bEx.model.loss = "categorical_crossentropy" ∧ bEx.model.optimizer = Optimizer.Adam bEx.lr ∧
      bEx.model.metrics = ["acc"]) ∧
    (sEx.model.loss = "categorical_crossentropy" ∧ sEx.model.optimizer = Optimizer.Adam sEx.lr ∧
      sEx.model.metrics = ["acc"]) ∧
    (rExModel.loss = "categorical_crossentropy" ∧ rExModel.optimizer = Optimizer.Adam rEx.lr ∧
      rExModel.metrics = ["acc"]) :=
  models_compile_fixed_settings bEx sEx rEx (2, 2) rExModel (by rfl)

/-- C8: configuration is consumed read-only: the method call leaves every
`__init__` attribute unchanged, and a second call builds the same model. -/
theorem model_call_preserves_config (b : baseline_nn_model) (s : simple_combine_model)
    (r : resnet) (sh : Nat × Nat) :
    (b.modelCall.2 = b ∧ b.modelCall.2.model = b.model) ∧
    (s.modelCall.2 = s ∧ s.modelCall.2.model = s.model) ∧
    ((r.modelCall sh).2 = r ∧ (r.modelCall sh).2.model sh = r.model sh) :=
  ⟨⟨rfl, rfl⟩, ⟨rfl, rfl⟩, rfl, rfl⟩

/-- C6: the built models declare the configured input/output dimensions:
`baseline_nn_model` starts with a `Dense` of input dimension
`number_pixels` and ends with a 2-unit `Dense`; `simple_combine_model`
starts with input dimension `n_input` and ends with a 2-unit `Dense`;
`resnet` has exactly `channels` image inputs and ends with a
`Dense(classes)` head. -/
theorem models_io_dimensions (b : baseline_nn_model) (s : simple_combine_model)
    (r : resnet) (sh : Nat × Nat) (cm : Model) (h : r.model sh = Except.ok cm) :
    b.model.layers.head? =
      some (Layer.Dense b.number_pixels (some b.number_pixels) (some Initializer.normal)
        "relu" none) ∧
    b.model.layers.getLast? = some (Layer.Dense 2 none (some Initializer.normal) "softmax" none) ∧
    s.model.layers.head? =
      some (Layer.Dense s.n_input (some s.n_input) (some Initializer.normal) "relu" none) ∧
    s.model.layers.getLast? = some (Layer.Dense 2 none (some Initializer.normal) "softmax" none) ∧
    cm.inputs.length = r.channels ∧
    cm.layers.getLast? =
      some (Layer.Dense r.classes none (some (Initializer.glorot_uniform 0)) "softmax"
        (some ("fc" ++ toString r.classes))) := by
  obtain ⟨stages, _, rfl⟩ := resnet_model_ok_elim r sh cm h
  refine ⟨?_, ?_, rfl, rfl, ?_, ?_⟩
  · by_cases hd : b.dropout > 0 <;> simp [baseline_nn_model.model, hd]
  · by_cases hd : b.dropout > 0 <;> simp [baseline_nn_model.model, hd]
  · simp
  · simp only [List.getLast?_append, List.getLast?_cons_cons, List.getLast?_singleton,
      Option.or_some]

/-- Witness for C6 at the concrete configurations. -/
theorem models_io_dimensions_witness :
    bEx.model.layers.head? =
      some (Layer.Dense bEx.number_pixels (some bEx.number_pixels) (some Initializer.normal)
        "relu" none) ∧
    bEx.model.layers.getLast? =
      some (Layer.Dense 2 none (some Initializer.normal) "softmax" none) ∧
    sEx.model.layers.head? =
      some (Layer.Dense sEx.n_input (some sEx.n_input) (some Initializer.normal) "relu" none) ∧
    sEx.model.layers.getLast? =
      some (Layer.Dense 2 none (some Initializer.normal) "softmax" none) ∧
    rExModel.inputs.length = rEx.channels ∧
    rExModel.layers.getLast? =
      some (Layer.Dense rEx.classes none (some (Initializer.glorot_uniform 0)) "softmax"
        (some ("fc" ++ toString rEx.classes))) :=
  models_io_dimensions bEx sEx rEx (2, 2) rExModel (by rfl)

/-- C7: the `RandomFlip` layer is in the graph exactly when the instance was
constructed with `augmentation` true; with `augmentation` false the rescaled
and padded tensor feeds directly into the first convolution stage. -/
theorem resnet_model_augmentation_flag (m : resnet) (sh : Nat × Nat) (cm : Model)
    (h : m.model sh = Except.ok cm) :
    (Layer.RandomFlip "aug_reflect" ∈ cm.layers ↔ m.augmentation = true) ∧
    (m.augmentation = false →
      cm.layers.take 3 =
        [Layer.ImageScaleBlock m.input_shape true "scaled_input_",
         Layer.ZeroPadding2D (3, 3),
         Layer.Conv2D 64 (7, 7) (2, 2) "conv1" (Initializer.glorot_uniform 0)]) := by
  obtain ⟨stages, hs, rfl⟩ := resnet_model_ok_elim m sh cm h
  have hnot := randomFlip_not_mem_stages m stages hs "aug_reflect"
  cases haug : m.augmentation with
  | true =>
    constructor
    · simp
    · intro hff; exact Bool.noConfusion hff
  | false =>
    constructor
    · simp [hnot]
    · intro _
      simp

/-- Witness for C7 at a concrete non-augmented configuration. -/
theorem resnet_model_augmentation_flag_witness :
    (Layer.RandomFlip "aug_reflect" ∈ rExNoAugModel.layers ↔ rExNoAug.augmentation = true) ∧
    (rExNoAug.augmentation = false →
      rExNoAugModel.layers.take 3 =
        [Layer.ImageScaleBlock rExNoAug.input_shape true "scaled_input_",
         Layer.ZeroPadding2D (3, 3),
         Layer.Conv2D 64 (7, 7) (2, 2) "conv1" (Initializer.glorot_uniform 0)]) :=
  resnet_model_augmentation_flag rExNoAug (2, 2) rExNoAugModel (by rfl)

/-- C9: `resnet.model()` ignores the constructor's `normalization` flag for
the rescaling step: the first layer of the graph is always
`ImageScaleBlock(input_shape, normalization=True)`, while every
`ConvolutionBlock` and `IdentityBlock` in the graph carries the
constructor's `normalization` value. -/
theorem resnet_model_normalization_hardcoded (m : resnet) (sh : Nat × Nat) (cm : Model)
    (h : m.model sh = Except.ok cm) :
    cm.layers.head? = some (Layer.ImageScaleBlock m.input_shape true "scaled_input_") ∧
    (∀ f fl st bl s nv, Layer.ConvolutionBlock f fl st bl s nv ∈ cm.layers →
      nv = m.normalization) ∧
    (∀ f fl st bl nv, Layer.IdentityBlock f fl st bl nv ∈ cm.layers → nv = m.normalization) := by
  obtain ⟨stages, hs, rfl⟩ := resnet_model_ok_elim m sh cm h
  have hmemstages := stagesFlatten_mem m stages hs
  refine ⟨rfl, ?_, ?_⟩
  · intro f fl st bl s nv hmem
    cases haug : m.augmentation <;> rw [haug] at hmem <;> simp at hmem <;>
    · obtain ⟨l, hl, hxl⟩ := hmem
      rcases hmemstages _ (List.mem_flatten.mpr ⟨l, hl, hxl⟩) with
        ⟨f', fl', st', s', hx⟩ | ⟨f', fl', st', bl', hx⟩
      · injection hx
      · exact Layer.noConfusion hx
  · intro f fl st bl nv hmem
    cases haug : m.augmentation <;> rw [haug] at hmem <;> simp at hmem <;>
    · obtain ⟨l, hl, hxl⟩ := hmem
      rcases hmemstages _ (List.mem_flatten.mpr ⟨l, hl, hxl⟩) with
        ⟨f', fl', st', s', hx⟩ | ⟨f', fl', st', bl', hx⟩
      · exact Layer.noConfusion hx
      · injection hx

/-- Witness for C9 at a concrete configuration with `normalization := false`. -/
theorem resnet_model_normalization_hardcoded_witness :
    rExNoNormModel.layers.head? =
      some (Layer.ImageScaleBlock rExNoNorm.input_shape true "scaled_input_") ∧
    (∀ f fl st bl s nv, Layer.ConvolutionBlock f fl st bl s nv ∈ rExNoNormModel.layers →
      nv = rExNoNorm.normalization) ∧
    (∀ f fl st bl nv, Layer.IdentityBlock f fl st bl nv ∈ rExNoNormModel.layers →
      nv = rExNoNorm.normalization) :=
  resnet_model_normalization_hardcoded rExNoNorm (2, 2) rExNoNormModel (by rfl)

/-- C5: with `filter_sets`, `s_vals` or `i_vals` shorter than `f_vals`,
`resnet.model()` performs no validation, retry or recovery: the build ends
in the propagated indexing exception. -/
theorem resnet_model_mismatched_lengths (m : resnet) (sh : Nat × Nat)
    (h : m.filter_sets.length < m.f_vals.length ∨ m.s_vals.length < m.f_vals.length ∨
      m.i_vals.length < m.f_vals.length) :
    m.model sh = Except.error "IndexError" := by
  cases hm : m.model sh with
  | ok cm =>
    exfalso
    rcases h with h | h | h
    · obtain ⟨h1, _, _, _⟩ := resnet_model_ok_bounds m sh cm hm m.filter_sets.length h
      exact Nat.lt_irrefl _ h1
    · obtain ⟨_, h2, _, _⟩ := resnet_model_ok_bounds m sh cm hm m.s_vals.length h
      exact Nat.lt_irrefl _ h2
    · obtain ⟨_, _, h3, _⟩ := resnet_model_ok_bounds m sh cm hm m.i_vals.length h
      exact Nat.lt_irrefl _ h3
  | error e =>
    rw [onlyIndexError_resnet_model m sh e hm]

/-- Witness for C5: one stage requested but `filter_sets` empty. -/
theorem resnet_model_mismatched_lengths_witness :
    (rExShort.filter_sets.length < rExShort.f_vals.length ∨
      rExShort.s_vals.length < rExShort.f_vals.length ∨
      rExShort.i_vals.length < rExShort.f_vals.length) ∧
    rExShort.model (2, 2) = Except.error "IndexError" :=
  ⟨by decide, resnet_model_mismatched_lengths rExShort (2, 2) (by decide)⟩

/-- C10: a stage asking for more than 25 identity blocks drives
`ascii_lowercase[j+1]` past the 26-letter alphabet, so `model()` ends in
`IndexError` instead of returning a model. -/
theorem resnet_model_identity_overflow (m : resnet) (sh : Nat × Nat) (i v : Nat)
    (hi : i < m.f_vals.length) (hv : m.i_vals[i]? = some v) (h25 : 25 < v) :
    m.model sh = Except.error "IndexError" := by
  cases hm : m.model sh with
  | ok cm =>
    exfalso
    obtain ⟨_, _, _, hle⟩ := resnet_model_ok_bounds m sh cm hm i hi
    have hgd : m.i_vals.getD i 0 = v := by
      simp [List.getD_eq_getElem?_getD, hv]
    omega
  | error e =>
    rw [onlyIndexError_resnet_model m sh e hm]

/-- Witness for C10: a single stage with `i_vals = [26]`. -/
theorem resnet_model_identity_overflow_witness :
    0 < rExOverflow.f_vals.length ∧ rExOverflow.i_vals[0]? = some 26 ∧ 25 < 26 ∧
    rExOverflow.model (2, 2) = Except.error "IndexError" :=
  ⟨by decide, by decide, by decide,
    resnet_model_identity_overflow rExOverflow (2, 2) 0 26 (by decide) (by decide) (by decide)⟩

/-- C1: when the configuration is coherent (`filter_sets`, `s_vals`,
`i_vals` at least as long as `f_vals`, and every stage's identity-block
count fits the block-naming alphabet), `resnet.model()` builds exactly the
specified stack: the rescaling layer, zero padding, the optional flip
augmentation, the fixed stage-1 layers, then for each `i` below
`len(f_vals)` exactly one `ConvolutionBlock` with `f=f_vals[i]`,
`filters=filter_sets[i]`, `s=s_vals[i]` followed by exactly `i_vals[i]`
`IdentityBlock`s, and only then the average-pooling, flatten and softmax
head. -/
theorem resnet_model_stage_stack (m : resnet) (sh : Nat × Nat)
    (hfs : m.f_vals.length ≤ m.filter_sets.length)
    (hsv : m.f_vals.length ≤ m.s_vals.length)
    (hiv : m.f_vals.length ≤ m.i_vals.length)
    (hib : ∀ i, i < m.f_vals.length → m.i_vals.getD i 0 ≤ 25) :
    m.model sh = Except.ok
      { inputs := (List.range m.channels).map
          (fun i => Layer.Input (none, none, some 1) ("input" ++ toString i))
        layers :=
          [Layer.ImageScaleBlock m.input_shape true "scaled_input_",
           Layer.ZeroPadding2D (3, 3)]
          ++ (if m.augmentation then [Layer.RandomFlip "aug_reflect"] else [])
          ++ [Layer.Conv2D 64 (7, 7) (2, 2) "conv1" (Initializer.glorot_uniform 0),
              Layer.BatchNormalization 3 "bn_conv1",
              Layer.Activation "relu",
              Layer.MaxPooling2D (3, 3) (2, 2)]
          ++ ((List.range m.f_vals.length).map fun i =>
                Layer.ConvolutionBlock (m.f_vals.getD i 0) (m.filter_sets.getD i [])
                  (i + 1) "a" (m.s_vals.getD i 0) m.normalization ::
                (List.range (m.i_vals.getD i 0)).map fun j =>
                  Layer.IdentityBlock (m.f_vals.getD i 0) (m.filter_sets.getD i [])
                    (i + 1) (String.singleton (ascii_lowercase.getD (j + 1) 'a'))
                    m.normalization).flatten
          ++ [Layer.AveragePooling2D (poolSizeFor sh.1 sh.2) "avg_pool",
              Layer.Flatten,
              Layer.Dense m.classes none (some (Initializer.glorot_uniform 0)) "softmax"
                (some ("fc" ++ toString m.classes))]
        loss := "categorical_crossentropy"
        optimizer := Optimizer.Adam m.lr
        metrics := ["acc"]
        nm := "ResNet50" } := by
  have hstages := mapExcept_ok_of_forall
    (resnetStage m.filter_sets m.f_vals m.s_vals m.i_vals m.normalization)
    (fun i =>
      Layer.ConvolutionBlock (m.f_vals.getD i 0) (m.filter_sets.getD i [])
        (i + 1) "a" (m.s_vals.getD i 0) m.normalization ::
      (List.range (m.i_vals.getD i 0)).map fun j =>
        Layer.IdentityBlock (m.f_vals.getD i 0) (m.filter_sets.getD i [])
          (i + 1) (String.singleton (ascii_lowercase.getD (j + 1) 'a')) m.normalization)
    (List.range m.f_vals.length)
    (fun i hi => by
      have hi' := List.mem_range.mp hi
      exact resnetStage_ok m.filter_sets m.f_vals m.s_vals m.i_vals m.normalization i
        (Nat.lt_of_lt_of_le hi' hfs) hi' (Nat.lt_of_lt_of_le hi' hsv)
        (Nat.lt_of_lt_of_le hi' hiv) (hib i hi'))
  unfold resnet.model
  rw [hstages]
  simp only [exc_ok_bind, exc_pure_eq_ok]

/-- Witness for C1 at the concrete configuration `rEx`. -/
theorem resnet_model_stage_stack_witness :
    rEx.f_vals.length ≤ rEx.filter_sets.length ∧
    rEx.f_vals.length ≤ rEx.s_vals.length ∧
    rEx.f_vals.length ≤ rEx.i_vals.length ∧
    rEx.model (2, 2) = Except.ok
      { inputs := (List.range rEx.channels).map
          (fun i => Layer.Input (none, none, some 1) ("input" ++ toString i))
        layers :=
          [Layer.ImageScaleBlock rEx.input_shape true "scaled_input_",
           Layer.ZeroPadding2D (3, 3)]
          ++ (if rEx.augmentation then [Layer.RandomFlip "aug_reflect"] else [])
          ++ [Layer.Conv2D 64 (7, 7) (2, 2) "conv1" (Initializer.glorot_uniform 0),
              Layer.BatchNormalization 3 "bn_conv1",
              Layer.Activation "relu",
              Layer.MaxPooling2D (3, 3) (2, 2)]
          ++ ((List.range rEx.f_vals.length).map fun i =>
                Layer.ConvolutionBlock (rEx.f_vals.getD i 0) (rEx.filter_sets.getD i [])
                  (i + 1) "a" (rEx.s_vals.getD i 0) rEx.normalization ::
                (List.range (rEx.i_vals.getD i 0)).map fun j =>
                  Layer.IdentityBlock (rEx.f_vals.getD i 0) (rEx.filter_sets.getD i [])
                    (i + 1) (String.singleton (ascii_lowercase.getD (j + 1) 'a'))
                    rEx.normalization).flatten
          ++ [Layer.AveragePooling2D (poolSizeFor (2, 2).1 (2, 2).2) "avg_pool",
              Layer.Flatten,
              Layer.Dense rEx.classes none (some (Initializer.glorot_uniform 0)) "softmax"
                (some ("fc" ++ toString rEx.classes))]
        loss := "categorical_crossentropy"
        optimizer := Optimizer.Adam rEx.lr
        metrics := ["acc"]
        nm := "ResNet50" } :=
  ⟨by decide, by decide, by decide,
    resnet_model_stage_stack rEx (2, 2) (by decide) (by decide) (by decide) (by decide)⟩
